import Mathlib

/-!
Verification of the x402 payment middleware core
(typescript/packages/x402/src/middleware/middleware.ts) and of the
settle-decision logic of its framework adapters (Express, Hono, Next.js).

The TypeScript source is shallowly embedded: classes become structures,
methods become functions, thrown errors become explicit error results
(an inductive result type or Except), and the external collaborators
(payload extractor, paywall predicate, requirement matcher, facilitator
verify and settle, price converter, address normalizer) become function
parameters, exactly as they are injected or imported in the source.
-/

namespace X402

variable {Req : Type}

/-- Protocol version constant, mirroring the source constant X402_VERSION = 1. -/
def X402_VERSION : Nat := 1

/-- A JavaScript value that is either an Error instance (carrying a message)
or a plain string; mirrors the type of the caught values and of the field
X402Error.error, declared as Error | string in the source. -/
inductive ErrorLike where
  | err (message : String)
  | str (s : String)
deriving DecidableEq, Repr

/-- Message extraction used by X402Error.toJSON in the source: for an object
with a message field take its message, otherwise convert with String(...),
which on a plain string is the string itself. -/
def ErrorLike.jsMessage : ErrorLike → String
  | .err m => m
  | .str s => s

/-- Canonical payment requirement presented to clients. Field for field the
PaymentRequirements shape built by the middleware constructor; addresses and
amounts are modelled as strings, maxTimeoutSeconds as a natural number, and
the optional fields as options. -/
structure PaymentRequirements where
  scheme : String
  network : String
  maxAmountRequired : String
  resource : String
  description : String
  mimeType : String
  payTo : String
  maxTimeoutSeconds : Nat
  asset : String
  outputSchema : Option String
  extra : Option String
deriving DecidableEq, Repr

/-- The construction-time template, mirroring the field
PaymentMiddleware.#paymentReq of type Omit PaymentRequirements resource:
every field of PaymentRequirements except the request-derived resource. -/
structure PaymentReqTemplate where
  scheme : String
  network : String
  maxAmountRequired : String
  description : String
  mimeType : String
  payTo : String
  maxTimeoutSeconds : Nat
  asset : String
  outputSchema : Option String
  extra : Option String
deriving DecidableEq, Repr

/-- Merging the template with a resource, mirroring
Object.assign(\x7b\x7d, this.#paymentReq, \x7b resource \x7d) in
paymentRequirements: a fresh object holding every template field plus the
resource; the template itself is left untouched. -/
def PaymentReqTemplate.withResource (t : PaymentReqTemplate) (r : String) :
    PaymentRequirements :=
  { scheme := t.scheme
    network := t.network
    maxAmountRequired := t.maxAmountRequired
    resource := r
    description := t.description
    mimeType := t.mimeType
    payTo := t.payTo
    maxTimeoutSeconds := t.maxTimeoutSeconds
    asset := t.asset
    outputSchema := t.outputSchema
    extra := t.extra }

/-- Forgetting the resource field of a requirement, the inverse view used to
compare a built requirement with the construction-time template. -/
def PaymentRequirements.eraseResource (p : PaymentRequirements) :
    PaymentReqTemplate :=
  { scheme := p.scheme
    network := p.network
    maxAmountRequired := p.maxAmountRequired
    description := p.description
    mimeType := p.mimeType
    payTo := p.payTo
    maxTimeoutSeconds := p.maxTimeoutSeconds
    asset := p.asset
    outputSchema := p.outputSchema
    extra := p.extra }

/-- Opaque, externally decoded payment payload; the core never inspects it,
it only hands it to the matcher, the verifier and the settler. -/
structure PaymentPayload where
  raw : String
deriving DecidableEq, Repr

/-- Error thrown during the x402 payment flow (class X402Error). The field
x402Version is the constant X402_VERSION and is left implicit; error, accepts
and payer are the constructor-stored fields. -/
structure X402Error where
  error : ErrorLike
  accepts : List PaymentRequirements
  payer : Option String
deriving DecidableEq, Repr

/-- The JSON object produced by X402Error.toJSON: exactly the four keys
x402Version, error, accepts and payer. The external serializer toJsonSafe
applied to accepts is structure preserving and is modelled as the identity
on the requirement list. -/
structure X402ErrorJSON where
  x402Version : Nat
  error : String
  accepts : List PaymentRequirements
  payer : Option String
deriving DecidableEq, Repr

/-- X402Error.toJSON from the source: x402Version is the constant, error is
the message of the stored Error instance or the stored string itself, accepts
is the full stored requirement list, payer is the stored optional payer. -/
def X402Error.toJSON (e : X402Error) : X402ErrorJSON :=
  { x402Version := X402_VERSION
    error := e.error.jsMessage
    accepts := e.accepts
    payer := e.payer }

/-- Response of the external facilitator verifier. -/
structure VerifyResponse where
  isValid : Bool
  invalidReason : Option String
  payer : Option String
deriving DecidableEq, Repr

/-- Response of the external facilitator settler (SettleResponse): success
flag, transaction and network, optional payer and optional errorReason. -/
structure SettleResponse where
  success : Bool
  transaction : String
  network : String
  payer : Option String
  errorReason : Option String
deriving DecidableEq, Repr

/-- Outcome of one call to the external settler: the call may reject or throw
(modelled as throws) or return a SettleResponse. -/
inductive SettleOutcome where
  | throws (e : ErrorLike)
  | returns (r : SettleResponse)
deriving DecidableEq, Repr

/-- The result of a successful x402 settlement (type Settlement in the
source): success is the literal true written by settle, the remaining fields
are copied from the settler response; settlement.payer! is a type-level
non-null assertion only, so the runtime value is passed through unchanged and
is modelled as the optional payer. -/
structure Settlement where
  success : Bool
  transaction : String
  network : String
  payer : Option String
deriving DecidableEq, Repr

/-- JavaScript template interpolation of a possibly undefined string, as in
the source message Settlement failed: interpolated errorReason; an undefined
value renders as the string undefined. -/
def jsInterpolate : Option String → String
  | some s => s
  | none => "undefined"

/-- Verified payment that can be settled later (class AcquiredPayment):
payload, selected requirement, full requirement list and the bound settle
capability of the facilitator. -/
structure AcquiredPayment where
  payload : PaymentPayload
  selected : PaymentRequirements
  requirements : List PaymentRequirements
  settleF : PaymentPayload → PaymentRequirements → SettleOutcome

/-- AcquiredPayment.settle from the source: call the stored settler with
(payload, selected); a thrown or rejected call is re-raised as an X402Error
carrying the original error and the requirement list with no payer; a
structured failure raises an X402Error with message Settlement failed:
errorReason, the requirement list and the settler-reported payer; on success
return the settlement copied from the settler response. -/
def AcquiredPayment.settle (a : AcquiredPayment) : Except X402Error Settlement :=
  match a.settleF a.payload a.selected with
  | .throws e => .error ⟨e, a.requirements, none⟩
  | .returns r =>
    if r.success then
      .ok ⟨true, r.transaction, r.network, r.payer⟩
    else
      .error ⟨.str ("Settlement failed: " ++ jsInterpolate r.errorReason),
              a.requirements, r.payer⟩

/-- Outcome of one call to the injected payload extractor paymentFromRequest:
it may throw on malformed input, or produce a payload or undefined. -/
inductive ExtractOutcome where
  | throws (e : ErrorLike)
  | value (p : Option PaymentPayload)
deriving DecidableEq, Repr

/-- The resource configured for a middleware: either the static URI from
config.config.resource or the injected per-request resourceFromRequest
function, mirroring the field PaymentMiddleware.#resource. -/
inductive ResourceSpec (Req : Type) where
  | static (r : String)
  | dynamic (f : Req → String)

/-- Resolution of the resource for a request, mirroring the
typeof-function branch at the start of paymentRequirements. -/
def ResourceSpec.resolve : ResourceSpec Req → Req → String
  | .static r, _ => r
  | .dynamic f, request => f request

/-- The constructed middleware state: the cached requirement template
(#paymentReq), the resource specification (#resource), and the injected
collaborators (#paymentFromRequest, #canRenderPaywall, and the facilitator
verify and settle capabilities). -/
structure Middleware (Req : Type) where
  paymentReq : PaymentReqTemplate
  resource : ResourceSpec Req
  paymentFromRequest : Req → ExtractOutcome
  canRenderPaywall : Option (Req → Bool)
  verify : PaymentPayload → PaymentRequirements → VerifyResponse
  settleF : PaymentPayload → PaymentRequirements → SettleOutcome

/-- PaymentMiddleware.paymentRequirements from the source: resolve the
resource (statically or from the request), and return a one-element list
holding the template merged with that resource. -/
def Middleware.paymentRequirements (m : Middleware Req) (request : Req) :
    List PaymentRequirements :=
  [m.paymentReq.withResource (m.resource.resolve request)]

/-- Result of PaymentMiddleware.acquirePayment: a thrown X402Error, the
undefined no-payment sentinel telling the caller to render a paywall, or a
verified AcquiredPayment. -/
inductive AcquireResult where
  | errorThrown (e : X402Error)
  | noPayment
  | acquired (a : AcquiredPayment)

/-- PaymentMiddleware.acquirePayment from the source. The external
requirement matcher findMatchingPaymentRequirements is an import in the
source and a parameter here. Steps, in source order: extract the payload
(extractor failure re-raised as X402Error with the requirement list); on no
payload consult the optional paywall predicate (optional chaining: an absent
predicate counts as false) and either return the sentinel or raise the
X-PAYMENT header error; on a payload select a matching requirement (none
raises the no-match error); verify, raising on isValid false with the
invalidReason or its default and the verifier-reported payer; otherwise
return the AcquiredPayment bound to the facilitator settle capability. -/
def Middleware.acquirePayment (m : Middleware Req)
    (matcher : List PaymentRequirements → PaymentPayload → Option PaymentRequirements)
    (request : Req) (reqs : List PaymentRequirements) : AcquireResult :=
  match m.paymentFromRequest request with
  | .throws e => .errorThrown ⟨e, reqs, none⟩
  | .value none =>
    if (match m.canRenderPaywall with
        | some f => f request
        | none => false) then
      .noPayment
    else
      .errorThrown ⟨.str "X-PAYMENT header is required", reqs, none⟩
  | .value (some payload) =>
    match matcher reqs payload with
    | none =>
      .errorThrown ⟨.str "Unable to find matching payment requirements", reqs, none⟩
    | some selected =>
      let v := m.verify payload selected
      if v.isValid then
        .acquired ⟨payload, selected, reqs, m.settleF⟩
      else
        .errorThrown ⟨.str (v.invalidReason.getD "Payment verification failed"),
                      reqs, v.payer⟩

/-- Asset descriptor returned by the external price converter
processPriceToAtomicAmount: the asset address plus the opaque eip712 signing
metadata placed verbatim into the extra field of the template. -/
structure AssetInfo where
  address : String
  eip712 : Option String
deriving DecidableEq, Repr

/-- Result of the external price-to-atomic-amount converter: either an error
record carrying a message, or the atomic maxAmountRequired together with the
asset descriptor. -/
inductive PriceConversion where
  | failure (error : String)
  | ok (maxAmountRequired : String) (asset : AssetInfo)
deriving DecidableEq, Repr

/-- The nested configuration object config.config of a RouteConfig: only the
fields the middleware constructor reads are modelled. -/
structure RouteConfigOpts where
  resource : Option String
  description : Option String
  mimeType : Option String
  maxTimeoutSeconds : Option Nat
  outputSchema : Option String

/-- Configuration accepted by the PaymentMiddleware constructor, with the
facilitator already resolved to its verify and settle capabilities (in the
source, useFacilitator output optionally overridden by verifyFn and
settleFn). The resource of config.config is a well-typed Resource template
string and is therefore never the empty string, so the JavaScript
truthiness test on it coincides with option presence. -/
structure MiddlewareConfig (Req : Type) where
  price : String
  network : String
  opts : Option RouteConfigOpts
  payTo : String
  resourceFromRequest : Option (Req → String)
  canRenderPaywall : Option (Req → Bool)
  paymentFromRequest : Req → ExtractOutcome
  verify : PaymentPayload → PaymentRequirements → VerifyResponse
  settleF : PaymentPayload → PaymentRequirements → SettleOutcome

/-- The resource chosen by the constructor line
config.config?.resource || config.resourceFromRequest. -/
def MiddlewareConfig.resolveResource (cfg : MiddlewareConfig Req) :
    Option (ResourceSpec Req) :=
  match cfg.opts.bind RouteConfigOpts.resource with
  | some r => some (.static r)
  | none => cfg.resourceFromRequest.map .dynamic

/-- Result of running the PaymentMiddleware constructor: a thrown
PaymentMiddlewareConfigError (configError), an error of an external
collaborator propagated unchanged (externalError, e.g. the viem getAddress
validation error on a malformed address), or the constructed middleware. -/
inductive CtorResult (Req : Type) where
  | configError (message : String)
  | externalError (e : ErrorLike)
  | ok (m : Middleware Req)

/-- The PaymentMiddleware constructor from the source. External
collaborators as parameters: conv is processPriceToAtomicAmount (or the
injected override) and getAddress is the viem checksum normalizer, which may
throw on a malformed address. Steps in source order: resolve the resource
and fail with the fixed ConfigError message when absent; convert the price
and fail with the reported message verbatim on a conversion error; checksum
payTo and the asset address; cache the requirement template with the
defaults for description, mimeType and maxTimeoutSeconds. -/
def construct (cfg : MiddlewareConfig Req)
    (conv : String → String → PriceConversion)
    (getAddress : String → Except ErrorLike String) : CtorResult Req :=
  match cfg.resolveResource with
  | none =>
    .configError "Either config.resource or resourceFromRequest must be provided"
  | some res =>
    match conv cfg.price cfg.network with
    | .failure msg => .configError msg
    | .ok amount asset =>
      match getAddress cfg.payTo with
      | .error e => .externalError e
      | .ok payToAddr =>
        match getAddress asset.address with
        | .error e => .externalError e
        | .ok assetAddr =>
          .ok
            { paymentReq :=
                { scheme := "exact"
                  network := cfg.network
                  maxAmountRequired := amount
                  description := (cfg.opts.bind RouteConfigOpts.description).getD ""
                  mimeType := (cfg.opts.bind RouteConfigOpts.mimeType).getD "application/json"
                  payTo := payToAddr
                  maxTimeoutSeconds := (cfg.opts.bind RouteConfigOpts.maxTimeoutSeconds).getD 300
                  asset := assetAddr
                  outputSchema := cfg.opts.bind RouteConfigOpts.outputSchema
                  extra := asset.eip712 }
              resource := res
              paymentFromRequest := cfg.paymentFromRequest
              canRenderPaywall := cfg.canRenderPaywall
              verify := cfg.verify
              settleF := cfg.settleF }

/-- Body of an adapter HTTP response: the rendered paywall page, the JSON
serialization of an X402Error (JSON.stringify invokes toJSON), or the
downstream handler response passed through. -/
inductive AdapterBody where
  | paywallHtml
  | errorJson (j : X402ErrorJSON)
  | downstream
deriving DecidableEq, Repr

/-- Observable outcome of one adapter invocation on a protected route:
whether the settle capability was invoked, the final response status, the
body kind, and whether the X-PAYMENT-RESPONSE header was set. -/
structure AdapterResult where
  settleCalled : Bool
  status : Nat
  body : AdapterBody
  paymentResponseHeader : Bool
deriving DecidableEq, Repr

/-- The JSON error body of an adapter result, when the body is one. -/
def AdapterResult.jsonBody (r : AdapterResult) : Option X402ErrorJSON :=
  match r.body with
  | .errorJson j => some j
  | _ => none

/-- The Hono adapter flow for a matched protected route, from the x402-hono
paymentMiddleware: build the requirements, acquire the payment (an X402Error
is caught and serialized as a 402 JSON response; the no-payment sentinel
renders a 402 paywall); on an acquired payment run the downstream handler,
and if its response status is at least 400 return without settling;
otherwise settle, turning a settlement X402Error into a 402 JSON response
and on success setting the X-PAYMENT-RESPONSE header. -/
def honoHandle (m : Middleware Req)
    (matcher : List PaymentRequirements → PaymentPayload → Option PaymentRequirements)
    (request : Req) (downstreamStatus : Nat) : AdapterResult :=
  match m.acquirePayment matcher request (m.paymentRequirements request) with
  | .errorThrown e => ⟨false, 402, .errorJson e.toJSON, false⟩
  | .noPayment => ⟨false, 402, .paywallHtml, false⟩
  | .acquired a =>
    if 400 ≤ downstreamStatus then
      ⟨false, downstreamStatus, .downstream, false⟩
    else
      match a.settle with
      | .error e => ⟨true, 402, .errorJson e.toJSON, false⟩
      | .ok _ => ⟨true, downstreamStatus, .downstream, true⟩

/-- The Express adapter flow for a matched protected route, from the
middleware.ts paymentMiddleware: acquire the payment (X402Error is answered
with res.status(402).json(e.toJSON()); the sentinel renders a 402 paywall);
on an acquired payment defer until the downstream response is finalized, and
if res.statusCode is at least 400 return without settling; otherwise settle,
answering a settlement X402Error with a 402 JSON response only when the
headers have not been sent, and on success setting X-PAYMENT-RESPONSE. -/
def expressHandle (m : Middleware Req)
    (matcher : List PaymentRequirements → PaymentPayload → Option PaymentRequirements)
    (request : Req) (statusCode : Nat) (headersSent : Bool) : AdapterResult :=
  match m.acquirePayment matcher request (m.paymentRequirements request) with
  | .errorThrown e => ⟨false, 402, .errorJson e.toJSON, false⟩
  | .noPayment => ⟨false, 402, .paywallHtml, false⟩
  | .acquired a =>
    if 400 ≤ statusCode then
      ⟨false, statusCode, .downstream, false⟩
    else
      match a.settle with
      | .error e =>
        if headersSent then
          ⟨true, statusCode, .downstream, false⟩
        else
          ⟨true, 402, .errorJson e.toJSON, false⟩
      | .ok _ => ⟨true, statusCode, .downstream, true⟩

/-- The Next.js paymentMiddleware flow for a matched protected route, from
the x402-next adapter: acquire the payment (X402Error is answered with a 402
JSON response; the sentinel renders a 402 paywall); on an acquired payment
the middleware settles immediately on the fresh NextResponse.next()
continuation, before and independently of the downstream handler, whose
eventual status (handlerStatus) is produced only after the middleware has
returned and is never consulted by the settle decision. -/
def nextHandle (m : Middleware Req)
    (matcher : List PaymentRequirements → PaymentPayload → Option PaymentRequirements)
    (request : Req) (handlerStatus : Nat) : AdapterResult :=
  match m.acquirePayment matcher request (m.paymentRequirements request) with
  | .errorThrown e => ⟨false, 402, .errorJson e.toJSON, false⟩
  | .noPayment => ⟨false, 402, .paywallHtml, false⟩
  | .acquired a =>
    match a.settle with
    | .error e => ⟨true, 402, .errorJson e.toJSON, false⟩
    | .ok _ => ⟨true, handlerStatus, .downstream, true⟩

/-- The Next.js withPayment wrapper flow, from the x402-next adapter:
acquire the payment as above; on an acquired payment await the wrapped
handler (whose response carries handlerStatus) and then settle
unconditionally, with no check of the handler status; a settlement
X402Error is answered with a 402 JSON response, and on success the handler
response is returned with the X-PAYMENT-RESPONSE header set. -/
def withPaymentHandle (m : Middleware Req)
    (matcher : List PaymentRequirements → PaymentPayload → Option PaymentRequirements)
    (request : Req) (handlerStatus : Nat) : AdapterResult :=
  match m.acquirePayment matcher request (m.paymentRequirements request) with
  | .errorThrown e => ⟨false, 402, .errorJson e.toJSON, false⟩
  | .noPayment => ⟨false, 402, .paywallHtml, false⟩
  | .acquired a =>
    match a.settle with
    | .error e => ⟨true, 402, .errorJson e.toJSON, false⟩
    | .ok _ => ⟨true, handlerStatus, .downstream, true⟩

/-!
Concrete instances, used as evaluation witnesses for the theorems below.
They mirror the fixtures of the middleware unit tests: USDC on base at
ten thousand atomic units, and a facilitator stubbed to the wanted
verify and settle outcomes.
-/

/-- Concrete payment requirement, mirroring the unit-test fixture. -/
def req0 : PaymentRequirements :=
  { scheme := "exact"
    network := "base"
    maxAmountRequired := "10000"
    resource := "https://example.com/resource"
    description := ""
    mimeType := "application/json"
    payTo := "0xBAc675C310721717Cd4A37F6cbeA1F081b1C2a07"
    maxTimeoutSeconds := 300
    asset := "0x833589fCD6eDb6E08f4c7C32D4f71b54bdA02913"
    outputSchema := none
    extra := none }

/-- The template of req0. -/
def t0 : PaymentReqTemplate := req0.eraseResource

/-- Concrete requirement list. -/
def reqs0 : List PaymentRequirements := [req0]

/-- Concrete opaque payload. -/
def p0 : PaymentPayload := ⟨"encoded-payment"⟩

/-- Matcher that selects the first requirement. -/
def matcherFirst :
    List PaymentRequirements → PaymentPayload → Option PaymentRequirements :=
  fun reqs _ => reqs.head?

/-- Matcher that selects nothing. -/
def matcherNone :
    List PaymentRequirements → PaymentPayload → Option PaymentRequirements :=
  fun _ _ => none

/-- Verifier stub reporting a valid payment. -/
def verifyOk : PaymentPayload → PaymentRequirements → VerifyResponse :=
  fun _ _ => ⟨true, none, some "0xabc"⟩

/-- Verifier stub reporting an invalid payment with a reason and a payer. -/
def verifyFail : PaymentPayload → PaymentRequirements → VerifyResponse :=
  fun _ _ => ⟨false, some "insufficient_funds", some "0xdef"⟩

/-- Settler stub returning a successful settlement. -/
def settleOk : PaymentPayload → PaymentRequirements → SettleOutcome :=
  fun _ _ => .returns ⟨true, "0x123", "base", some "0xabc", none⟩

/-- Settler stub returning a successful settlement with no payer. -/
def settleOkNoPayer : PaymentPayload → PaymentRequirements → SettleOutcome :=
  fun _ _ => .returns ⟨true, "0x123", "base", none, none⟩

/-- Settler stub returning a structured failure. -/
def settleFail : PaymentPayload → PaymentRequirements → SettleOutcome :=
  fun _ _ => .returns ⟨false, "0x123", "base", some "0xabc", some "insufficient_funds"⟩

/-- Settler stub whose call rejects. -/
def settleThrow : PaymentPayload → PaymentRequirements → SettleOutcome :=
  fun _ _ => .throws (.err "facilitator unreachable")

/-- Middleware whose request carries a payload that verifies and settles. -/
def m0 : Middleware Unit :=
  { paymentReq := t0
    resource := .static "https://example.com/resource"
    paymentFromRequest := fun _ => .value (some p0)
    canRenderPaywall := none
    verify := verifyOk
    settleF := settleOk }

/-- Middleware whose verifier rejects the payment. -/
def mVerifyFail : Middleware Unit := { m0 with verify := verifyFail }

/-- Middleware whose request carries no payment payload. -/
def mNoPayload : Middleware Unit :=
  { m0 with paymentFromRequest := fun _ => .value none }

/-- No payload and a paywall-renderable request. -/
def mPaywall : Middleware Unit :=
  { mNoPayload with canRenderPaywall := some (fun _ => true) }

/-- No payload and a request that cannot render a paywall. -/
def mNoPaywall : Middleware Unit :=
  { mNoPayload with canRenderPaywall := some (fun _ => false) }

/-- Acquired payment bound to the successful settler. -/
def a0 : AcquiredPayment := ⟨p0, req0, reqs0, settleOk⟩

/-- Acquired payment bound to the successful settler reporting no payer. -/
def aNoPayer : AcquiredPayment := ⟨p0, req0, reqs0, settleOkNoPayer⟩

/-- Acquired payment bound to the structurally failing settler. -/
def aFail : AcquiredPayment := ⟨p0, req0, reqs0, settleFail⟩

/-- Acquired payment bound to the rejecting settler. -/
def aThrow : AcquiredPayment := ⟨p0, req0, reqs0, settleThrow⟩

/-- The JSON body produced for a missing payment header on reqs0. -/
def jerr : X402ErrorJSON :=
  X402Error.toJSON ⟨.str "X-PAYMENT header is required", reqs0, none⟩

/-- Concrete constructor configuration with an empty nested config, used to
exercise the constructor defaults. -/
def cfg9 : MiddlewareConfig Unit :=
  { price := "$0.01"
    network := "base"
    opts := none
    payTo := "0xBAc675C310721717Cd4A37F6cbeA1F081b1C2a07"
    resourceFromRequest := some (fun _ => "https://example.com/resource")
    canRenderPaywall := none
    paymentFromRequest := fun _ => .value none
    verify := verifyOk
    settleF := settleOk }

/-- Converter stub for cfg9. -/
def conv9 : String → String → PriceConversion :=
  fun _ _ => .ok "10000" ⟨"0x833589fCD6eDb6E08f4c7C32D4f71b54bdA02913", some "USDC-eip712"⟩

/-- Address normalizer stub that accepts every address unchanged. -/
def ga9 : String → Except ErrorLike String := fun s => .ok s

/-- Configuration supplying neither a static resource nor a
resourceFromRequest function. -/
def cfgNoRes : MiddlewareConfig Unit :=
  { cfg9 with resourceFromRequest := none }

/-- Converter stub reporting a conversion error. -/
def convErr : String → String → PriceConversion := fun _ _ => .failure "Oops"

/-- The middleware built by construct on cfg9, conv9 and ga9. -/
def m9 : Middleware Unit :=
  { paymentReq :=
      { scheme := "exact"
        network := "base"
        maxAmountRequired := "10000"
        description := ""
        mimeType := "application/json"
        payTo := "0xBAc675C310721717Cd4A37F6cbeA1F081b1C2a07"
        maxTimeoutSeconds := 300
        asset := "0x833589fCD6eDb6E08f4c7C32D4f71b54bdA02913"
        outputSchema := none
        extra := some "USDC-eip712" }
    resource := .dynamic (fun _ => "https://example.com/resource")
    paymentFromRequest := fun _ => .value none
    canRenderPaywall := none
    verify := verifyOk
    settleF := settleOk }

/-!
Helper lemmas.
-/

/-- The constructor resource resolution yields nothing exactly when both the
static resource and the resourceFromRequest function are absent. -/
lemma resolveResource_eq_none_iff (cfg : MiddlewareConfig Req) :
    cfg.resolveResource = none ↔
      cfg.opts.bind RouteConfigOpts.resource = none ∧ cfg.resourceFromRequest = none := by
  unfold MiddlewareConfig.resolveResource
  cases cfg.opts.bind RouteConfigOpts.resource <;>
    cases cfg.resourceFromRequest <;> simp

/-- Every result of the Hono adapter flow has one of four shapes; in
particular every JSON error body is the toJSON image of an X402Error and
comes with status 402. -/
lemma honoHandle_cases (m : Middleware Req)
    (matcher : List PaymentRequirements → PaymentPayload → Option PaymentRequirements)
    (request : Req) (ds : Nat) :
    (∃ e : X402Error, honoHandle m matcher request ds = ⟨false, 402, .errorJson e.toJSON, false⟩) ∨
    honoHandle m matcher request ds = ⟨false, 402, .paywallHtml, false⟩ ∨
    (∃ b s ph, honoHandle m matcher request ds = ⟨b, s, .downstream, ph⟩) ∨
    (∃ e : X402Error, honoHandle m matcher request ds = ⟨true, 402, .errorJson e.toJSON, false⟩) := by
  unfold honoHandle
  cases m.acquirePayment matcher request (m.paymentRequirements request) with
  | errorThrown e => exact .inl ⟨e, rfl⟩
  | noPayment => exact .inr (.inl rfl)
  | acquired a =>
    dsimp only
    by_cases hds : 400 ≤ ds
    · rw [if_pos hds]
      exact .inr (.inr (.inl ⟨false, ds, false, rfl⟩))
    · rw [if_neg hds]
      cases a.settle with
      | error e => exact .inr (.inr (.inr ⟨e, rfl⟩))
      | ok s => exact .inr (.inr (.inl ⟨true, ds, true, rfl⟩))

/-- Shape analysis for the Express adapter flow, as for the Hono one. -/
lemma expressHandle_cases (m : Middleware Req)
    (matcher : List PaymentRequirements → PaymentPayload → Option PaymentRequirements)
    (request : Req) (sc : Nat) (hs : Bool) :
    (∃ e : X402Error, expressHandle m matcher request sc hs = ⟨false, 402, .errorJson e.toJSON, false⟩) ∨
    expressHandle m matcher request sc hs = ⟨false, 402, .paywallHtml, false⟩ ∨
    (∃ b s ph, expressHandle m matcher request sc hs = ⟨b, s, .downstream, ph⟩) ∨
    (∃ e : X402Error, expressHandle m matcher request sc hs = ⟨true, 402, .errorJson e.toJSON, false⟩) := by
  unfold expressHandle
  cases m.acquirePayment matcher request (m.paymentRequirements request) with
  | errorThrown e => exact .inl ⟨e, rfl⟩
  | noPayment => exact .inr (.inl rfl)
  | acquired a =>
    dsimp only
    by_cases hsc : 400 ≤ sc
    · rw [if_pos hsc]
      exact .inr (.inr (.inl ⟨false, sc, false, rfl⟩))
    · rw [if_neg hsc]
      cases a.settle with
      | error e =>
        cases hs with
        | true => exact .inr (.inr (.inl ⟨true, sc, false, rfl⟩))
        | false => exact .inr (.inr (.inr ⟨e, rfl⟩))
      | ok s => exact .inr (.inr (.inl ⟨true, sc, true, rfl⟩))

/-- Shape analysis for the Next.js middleware flow. -/
lemma nextHandle_cases (m : Middleware Req)
    (matcher : List PaymentRequirements → PaymentPayload → Option PaymentRequirements)
    (request : Req) (ds : Nat) :
    (∃ e : X402Error, nextHandle m matcher request ds = ⟨false, 402, .errorJson e.toJSON, false⟩) ∨
    nextHandle m matcher request ds = ⟨false, 402, .paywallHtml, false⟩ ∨
    (∃ b s ph, nextHandle m matcher request ds = ⟨b, s, .downstream, ph⟩) ∨
    (∃ e : X402Error, nextHandle m matcher request ds = ⟨true, 402, .errorJson e.toJSON, false⟩) := by
  unfold nextHandle
  cases m.acquirePayment matcher request (m.paymentRequirements request) with
  | errorThrown e => exact .inl ⟨e, rfl⟩
  | noPayment => exact .inr (.inl rfl)
  | acquired a =>
    dsimp only
    cases a.settle with
    | error e => exact .inr (.inr (.inr ⟨e, rfl⟩))
    | ok s => exact .inr (.inr (.inl ⟨true, ds, true, rfl⟩))

/-- Shape analysis for the Next.js withPayment flow. -/
lemma withPaymentHandle_cases (m : Middleware Req)
    (matcher : List PaymentRequirements → PaymentPayload → Option PaymentRequirements)
    (request : Req) (ds : Nat) :
    (∃ e : X402Error, withPaymentHandle m matcher request ds = ⟨false, 402, .errorJson e.toJSON, false⟩) ∨
    withPaymentHandle m matcher request ds = ⟨false, 402, .paywallHtml, false⟩ ∨
    (∃ b s ph, withPaymentHandle m matcher request ds = ⟨b, s, .downstream, ph⟩) ∨
    (∃ e : X402Error, withPaymentHandle m matcher request ds = ⟨true, 402, .errorJson e.toJSON, false⟩) := by
  unfold withPaymentHandle
  cases m.acquirePayment matcher request (m.paymentRequirements request) with
  | errorThrown e => exact .inl ⟨e, rfl⟩
  | noPayment => exact .inr (.inl rfl)
  | acquired a =>
    dsimp only
    cases a.settle with
    | error e => exact .inr (.inr (.inr ⟨e, rfl⟩))
    | ok s => exact .inr (.inr (.inl ⟨true, ds, true, rfl⟩))

/-!
Claim theorems.
-/

/-- C1: the claim states that when a payment was acquired and the downstream
handler produces a response with status at least 400, the middleware never
invokes the settle capability. The Express and Hono adapter flows honour
this (settle is skipped at status 500), but both Next.js flows invoke settle
regardless of the handler status: at downstream status 500 the Next.js
paymentMiddleware and withPayment flows call the settler. This theorem
evaluates all four adapter flows at the failing input. -/
theorem c1_nextjs_settles_despite_downstream_error :
    (withPaymentHandle m0 matcherFirst () 500).settleCalled = true ∧
    (nextHandle m0 matcherFirst () 500).settleCalled = true ∧
    (honoHandle m0 matcherFirst () 500).settleCalled = false ∧
    (expressHandle m0 matcherFirst () 500 false).settleCalled = false :=
  ⟨rfl, rfl, rfl, rfl⟩

/-- C2: every protocol error serializes to exactly the object holding
x402Version (the constant 1), error (the message string), accepts (the full
requirement list) and payer (the optional payer address) and nothing else;
and every 402 JSON response body written by an adapter flow is such a
serialization, always with status 402. -/
theorem c2_protocol_error_serialization
    (err : ErrorLike) (accepts : List PaymentRequirements) (payer : Option String)
    (m : Middleware Req)
    (matcher : List PaymentRequirements → PaymentPayload → Option PaymentRequirements)
    (request : Req) (ds : Nat) (hs : Bool) (j₁ j₂ j₃ j₄ : X402ErrorJSON) :
    (X402Error.mk err accepts payer).toJSON =
      ⟨X402_VERSION, err.jsMessage, accepts, payer⟩ ∧
    ((honoHandle m matcher request ds).jsonBody = some j₁ →
      (honoHandle m matcher request ds).status = 402 ∧ ∃ e : X402Error, j₁ = e.toJSON) ∧
    ((expressHandle m matcher request ds hs).jsonBody = some j₂ →
      (expressHandle m matcher request ds hs).status = 402 ∧ ∃ e : X402Error, j₂ = e.toJSON) ∧
    ((nextHandle m matcher request ds).jsonBody = some j₃ →
      (nextHandle m matcher request ds).status = 402 ∧ ∃ e : X402Error, j₃ = e.toJSON) ∧
    ((withPaymentHandle m matcher request ds).jsonBody = some j₄ →
      (withPaymentHandle m matcher request ds).status = 402 ∧ ∃ e : X402Error, j₄ = e.toJSON) := by
  refine ⟨rfl, ?_, ?_, ?_, ?_⟩
  · intro h
    rcases honoHandle_cases m matcher request ds with ⟨e, he⟩ | he | ⟨b, s, ph, he⟩ | ⟨e, he⟩ <;>
      rw [he] at h ⊢
    · exact ⟨rfl, e, (Option.some.inj h).symm⟩
    · simp [AdapterResult.jsonBody] at h
    · simp [AdapterResult.jsonBody] at h
    · exact ⟨rfl, e, (Option.some.inj h).symm⟩
  · intro h
    rcases expressHandle_cases m matcher request ds hs with ⟨e, he⟩ | he | ⟨b, s, ph, he⟩ | ⟨e, he⟩ <;>
      rw [he] at h ⊢
    · exact ⟨rfl, e, (Option.some.inj h).symm⟩
    · simp [AdapterResult.jsonBody] at h
    · simp [AdapterResult.jsonBody] at h
    · exact ⟨rfl, e, (Option.some.inj h).symm⟩
  · intro h
    rcases nextHandle_cases m matcher request ds with ⟨e, he⟩ | he | ⟨b, s, ph, he⟩ | ⟨e, he⟩ <;>
      rw [he] at h ⊢
    · exact ⟨rfl, e, (Option.some.inj h).symm⟩
    · simp [AdapterResult.jsonBody] at h
    · simp [AdapterResult.jsonBody] at h
    · exact ⟨rfl, e, (Option.some.inj h).symm⟩
  · intro h
    rcases withPaymentHandle_cases m matcher request ds with ⟨e, he⟩ | he | ⟨b, s, ph, he⟩ | ⟨e, he⟩ <;>
      rw [he] at h ⊢
    · exact ⟨rfl, e, (Option.some.inj h).symm⟩
    · simp [AdapterResult.jsonBody] at h
    · simp [AdapterResult.jsonBody] at h
    · exact ⟨rfl, e, (Option.some.inj h).symm⟩

/-- Evaluation witness for C2: the missing-header error serialized through
the Hono flow at a concrete middleware. -/
theorem c2_witness :
    (X402Error.mk (.str "boom") reqs0 (some "0xabc")).toJSON =
      ⟨1, "boom", reqs0, some "0xabc"⟩ ∧
    ((honoHandle mNoPaywall matcherFirst () 200).status = 402 ∧
      ∃ e : X402Error, jerr = e.toJSON) ∧
    ((expressHandle mNoPaywall matcherFirst () 200 false).status = 402 ∧
      ∃ e : X402Error, jerr = e.toJSON) ∧
    ((nextHandle mNoPaywall matcherFirst () 200).status = 402 ∧
      ∃ e : X402Error, jerr = e.toJSON) ∧
    ((withPaymentHandle mNoPaywall matcherFirst () 200).status = 402 ∧
      ∃ e : X402Error, jerr = e.toJSON) := by
  have h := c2_protocol_error_serialization (ErrorLike.str "boom") reqs0 (some "0xabc")
    mNoPaywall matcherFirst () 200 false jerr jerr jerr jerr
  exact ⟨h.1, h.2.1 rfl, h.2.2.1 rfl, h.2.2.2.1 rfl, h.2.2.2.2 rfl⟩

/-- C3: settle on a rejected settler call raises an X402Error carrying the
original error and the full requirement list with no payer; on a structured
failure with errorReason r it raises an X402Error whose message is the
string Settlement failed: followed by r, carrying the requirement list and
the settler-reported payer. -/
theorem c3_settle_failure_errors
    (a₁ a₂ : AcquiredPayment) (e : ErrorLike) (r : SettleResponse) (reason : String)
    (h₁ : a₁.settleF a₁.payload a₁.selected = .throws e)
    (h₂ : a₂.settleF a₂.payload a₂.selected = .returns r)
    (hfail : r.success = false) (hreason : r.errorReason = some reason) :
    a₁.settle = .error ⟨e, a₁.requirements, none⟩ ∧
    a₂.settle = .error ⟨.str ("Settlement failed: " ++ reason), a₂.requirements, r.payer⟩ := by
  constructor
  · simp [AcquiredPayment.settle, h₁]
  · simp [AcquiredPayment.settle, h₂, hfail, hreason, jsInterpolate]

/-- Evaluation witness for C3 at the rejecting and the structurally failing
settler stubs. -/
theorem c3_witness :
    aThrow.settleF aThrow.payload aThrow.selected = .throws (.err "facilitator unreachable") ∧
    aFail.settleF aFail.payload aFail.selected =
      .returns ⟨false, "0x123", "base", some "0xabc", some "insufficient_funds"⟩ ∧
    aThrow.settle = .error ⟨.err "facilitator unreachable", reqs0, none⟩ ∧
    aFail.settle =
      .error ⟨.str "Settlement failed: insufficient_funds", reqs0, some "0xabc"⟩ := by
  have h := c3_settle_failure_errors aThrow aFail (.err "facilitator unreachable")
    ⟨false, "0x123", "base", some "0xabc", some "insufficient_funds"⟩ "insufficient_funds"
    rfl rfl rfl rfl
  exact ⟨rfl, rfl, h.1, h.2⟩

/-- C4: when the settler returns a successful response, settle returns
exactly that settlement (success true, transaction, network and payer as
reported); an absent payer on a successful response is passed through and
raises nothing. -/
theorem c4_settle_success_passthrough
    (a : AcquiredPayment) (r : SettleResponse)
    (h : a.settleF a.payload a.selected = .returns r) (hs : r.success = true) :
    a.settle = .ok ⟨true, r.transaction, r.network, r.payer⟩ := by
  simp [AcquiredPayment.settle, h, hs]

/-- Evaluation witness for C4, including a successful settler response with
an absent payer, which is returned unchanged rather than rejected. -/
theorem c4_witness :
    aNoPayer.settleF aNoPayer.payload aNoPayer.selected =
      .returns ⟨true, "0x123", "base", none, none⟩ ∧
    aNoPayer.settle = .ok ⟨true, "0x123", "base", none⟩ ∧
    a0.settle = .ok ⟨true, "0x123", "base", some "0xabc"⟩ :=
  ⟨rfl,
   c4_settle_success_passthrough aNoPayer ⟨true, "0x123", "base", none, none⟩ rfl rfl,
   c4_settle_success_passthrough a0 ⟨true, "0x123", "base", some "0xabc", none⟩ rfl rfl⟩

/-- C5: when a payload is present and matched but the verifier reports
isValid false, acquirePayment raises an X402Error whose message is the
invalidReason (or the default Payment verification failed when absent),
carrying the full requirement list and the verifier-reported payer. -/
theorem c5_verification_failure_error
    (m : Middleware Req)
    (matcher : List PaymentRequirements → PaymentPayload → Option PaymentRequirements)
    (request : Req) (reqs : List PaymentRequirements)
    (p : PaymentPayload) (sel : PaymentRequirements)
    (hp : m.paymentFromRequest request = .value (some p))
    (hm : matcher reqs p = some sel)
    (hv : (m.verify p sel).isValid = false) :
    m.acquirePayment matcher request reqs =
      .errorThrown ⟨.str ((m.verify p sel).invalidReason.getD "Payment verification failed"),
                    reqs, (m.verify p sel).payer⟩ := by
  simp [Middleware.acquirePayment, hp, hm, hv]

/-- Evaluation witness for C5 at a verifier rejecting with
insufficient_funds and payer 0xdef. -/
theorem c5_witness :
    mVerifyFail.paymentFromRequest () = .value (some p0) ∧
    matcherFirst reqs0 p0 = some req0 ∧
    (mVerifyFail.verify p0 req0).isValid = false ∧
    mVerifyFail.acquirePayment matcherFirst () reqs0 =
      .errorThrown ⟨.str "insufficient_funds", reqs0, some "0xdef"⟩ :=
  ⟨rfl, rfl, rfl,
   c5_verification_failure_error mVerifyFail matcherFirst () reqs0 p0 req0 rfl rfl rfl⟩

/-- C6: with no payload present, acquirePayment returns the no-payment
sentinel when the injected paywall predicate answers true, and otherwise
(predicate false or absent) raises the X402Error X-PAYMENT header is
required carrying the full requirement list. -/
theorem c6_no_payload_paywall_or_error
    (m : Middleware Req)
    (matcher : List PaymentRequirements → PaymentPayload → Option PaymentRequirements)
    (request : Req) (reqs : List PaymentRequirements)
    (hp : m.paymentFromRequest request = .value none) :
    m.acquirePayment matcher request reqs =
      if (match m.canRenderPaywall with
          | some f => f request
          | none => false) then
        .noPayment
      else
        .errorThrown ⟨.str "X-PAYMENT header is required", reqs, none⟩ := by
  simp only [Middleware.acquirePayment, hp]

/-- Evaluation witness for C6 in both the paywall-renderable and the
non-renderable case. -/
theorem c6_witness :
    mPaywall.paymentFromRequest () = .value none ∧
    mNoPaywall.paymentFromRequest () = .value none ∧
    mPaywall.acquirePayment matcherFirst () reqs0 = .noPayment ∧
    mNoPaywall.acquirePayment matcherFirst () reqs0 =
      .errorThrown ⟨.str "X-PAYMENT header is required", reqs0, none⟩ :=
  ⟨rfl, rfl,
   c6_no_payload_paywall_or_error mPaywall matcherFirst () reqs0 rfl,
   c6_no_payload_paywall_or_error mNoPaywall matcherFirst () reqs0 rfl⟩

/-- C7: when a payload is present but the matcher selects no requirement,
acquirePayment raises the X402Error Unable to find matching payment
requirements carrying the full requirement list, and the verifier is never
consulted: the outcome is identical for every verifier. -/
theorem c7_no_match_error_and_no_verify
    (m : Middleware Req)
    (matcher : List PaymentRequirements → PaymentPayload → Option PaymentRequirements)
    (request : Req) (reqs : List PaymentRequirements) (p : PaymentPayload)
    (hp : m.paymentFromRequest request = .value (some p))
    (hm : matcher reqs p = none) :
    m.acquirePayment matcher request reqs =
      .errorThrown ⟨.str "Unable to find matching payment requirements", reqs, none⟩ ∧
    ∀ verify2 : PaymentPayload → PaymentRequirements → VerifyResponse,
      Middleware.acquirePayment { m with verify := verify2 } matcher request reqs =
        m.acquirePayment matcher request reqs := by
  constructor
  · simp [Middleware.acquirePayment, hp, hm]
  · intro verify2
    simp [Middleware.acquirePayment, hp, hm]

/-- Evaluation witness for C7 at a matcher that selects nothing. -/
theorem c7_witness :
    m0.paymentFromRequest () = .value (some p0) ∧
    matcherNone reqs0 p0 = none ∧
    m0.acquirePayment matcherNone () reqs0 =
      .errorThrown ⟨.str "Unable to find matching payment requirements", reqs0, none⟩ :=
  ⟨rfl, rfl, (c7_no_match_error_and_no_verify m0 matcherNone () reqs0 p0 rfl rfl).1⟩

/-- C8: construction yields a PaymentMiddlewareConfigError exactly when
either no resource is supplied (fixed message) or, a resource being
supplied, the price conversion reports an error (message propagated
verbatim); a malformed address propagates the external validation error,
which is not a config error. -/
theorem c8_config_error_iff
    (cfg : MiddlewareConfig Req)
    (conv : String → String → PriceConversion)
    (getAddress : String → Except ErrorLike String) (msg : String) :
    construct cfg conv getAddress = .configError msg ↔
      ((cfg.opts.bind RouteConfigOpts.resource = none ∧ cfg.resourceFromRequest = none ∧
        msg = "Either config.resource or resourceFromRequest must be provided") ∨
       ((cfg.opts.bind RouteConfigOpts.resource ≠ none ∨ cfg.resourceFromRequest ≠ none) ∧
        conv cfg.price cfg.network = .failure msg)) := by
  constructor
  · intro h
    unfold construct at h
    cases hres : cfg.resolveResource with
    | none =>
      simp only [hres] at h
      have hboth := (resolveResource_eq_none_iff cfg).1 hres
      simp only [CtorResult.configError.injEq] at h
      exact .inl ⟨hboth.1, hboth.2, h.symm⟩
    | some res =>
      simp only [hres] at h
      have hne : ¬(cfg.opts.bind RouteConfigOpts.resource = none ∧
          cfg.resourceFromRequest = none) := by
        intro hc
        rw [(resolveResource_eq_none_iff cfg).2 hc] at hres
        cases hres
      cases hconv : conv cfg.price cfg.network with
      | failure m2 =>
        simp only [hconv, CtorResult.configError.injEq] at h
        exact .inr ⟨not_and_or.mp hne, by rw [h]⟩
      | ok amount asset =>
        simp only [hconv] at h
        cases hga : getAddress cfg.payTo with
        | error e => simp [hga] at h
        | ok pAddr =>
          cases hga2 : getAddress asset.address with
          | error e => simp [hga, hga2] at h
          | ok aAddr => simp [hga, hga2] at h
  · rintro (⟨h1, h2, rfl⟩ | ⟨h1, hconv⟩)
    · have hres : cfg.resolveResource = none :=
        (resolveResource_eq_none_iff cfg).2 ⟨h1, h2⟩
      simp [construct, hres]
    · have hsome : ∃ r, cfg.resolveResource = some r := by
        cases hres : cfg.resolveResource with
        | some r => exact ⟨r, rfl⟩
        | none =>
          have hboth := (resolveResource_eq_none_iff cfg).1 hres
          rcases h1 with h1 | h1
          · exact absurd hboth.1 h1
          · exact absurd hboth.2 h1
      rcases hsome with ⟨r, hres⟩
      simp [construct, hres, hconv]

/-- C9: every successfully constructed template has scheme exact,
maxAmountRequired equal to the converter amount, payTo and asset equal to
the output of the checksum normalizer on the configured payTo and on the
converter-reported asset address, extra equal to the asset eip712 metadata,
and the defaults for description, mimeType, maxTimeoutSeconds and
outputSchema when those config fields are absent. -/
theorem c9_template_fields
    (cfg : MiddlewareConfig Req)
    (conv : String → String → PriceConversion)
    (getAddress : String → Except ErrorLike String)
    (amount : String) (asset : AssetInfo) (payToAddr assetAddr : String)
    (m : Middleware Req)
    (hconv : conv cfg.price cfg.network = .ok amount asset)
    (hpt : getAddress cfg.payTo = .ok payToAddr)
    (ha : getAddress asset.address = .ok assetAddr)
    (hok : construct cfg conv getAddress = .ok m) :
    m.paymentReq.scheme = "exact" ∧
    m.paymentReq.network = cfg.network ∧
    m.paymentReq.maxAmountRequired = amount ∧
    m.paymentReq.payTo = payToAddr ∧
    m.paymentReq.asset = assetAddr ∧
    m.paymentReq.extra = asset.eip712 ∧
    (cfg.opts.bind RouteConfigOpts.description = none → m.paymentReq.description = "") ∧
    (cfg.opts.bind RouteConfigOpts.mimeType = none → m.paymentReq.mimeType = "application/json") ∧
    (cfg.opts.bind RouteConfigOpts.maxTimeoutSeconds = none → m.paymentReq.maxTimeoutSeconds = 300) ∧
    m.paymentReq.outputSchema = cfg.opts.bind RouteConfigOpts.outputSchema := by
  unfold construct at hok
  cases hres : cfg.resolveResource with
  | none => simp [hres] at hok
  | some res =>
    simp only [hres, hconv, hpt, ha] at hok
    have hm := (CtorResult.ok.inj hok).symm
    subst hm
    refine ⟨rfl, rfl, rfl, rfl, rfl, rfl, ?_, ?_, ?_, rfl⟩
    · intro hd; simp [hd]
    · intro hd; simp [hd]
    · intro hd; simp [hd]

/-- Evaluation witness for C9 at a configuration whose nested config is
absent, so all defaults apply. -/
theorem c9_witness :
    conv9 cfg9.price cfg9.network =
      .ok "10000" ⟨"0x833589fCD6eDb6E08f4c7C32D4f71b54bdA02913", some "USDC-eip712"⟩ ∧
    construct cfg9 conv9 ga9 = .ok m9 ∧
    m9.paymentReq.scheme = "exact" ∧ m9.paymentReq.description = "" ∧
    m9.paymentReq.mimeType = "application/json" ∧ m9.paymentReq.maxTimeoutSeconds = 300 ∧
    m9.paymentReq.outputSchema = none := by
  have h := c9_template_fields cfg9 conv9 ga9 "10000"
    ⟨"0x833589fCD6eDb6E08f4c7C32D4f71b54bdA02913", some "USDC-eip712"⟩
    "0xBAc675C310721717Cd4A37F6cbeA1F081b1C2a07"
    "0x833589fCD6eDb6E08f4c7C32D4f71b54bdA02913" m9 rfl rfl rfl rfl
  exact ⟨rfl, rfl, h.1, h.2.2.2.2.2.2.1 rfl, h.2.2.2.2.2.2.2.1 rfl,
    h.2.2.2.2.2.2.2.2.1 rfl, h.2.2.2.2.2.2.2.2.2⟩

/-- C10: for every middleware and request, paymentRequirements returns
exactly one requirement, every field of it except resource equals the
construction-time template, the template itself is untouched, and the
non-resource fields do not vary with the request. -/
theorem c10_single_requirement_template_frame
    (m : Middleware Req) (request request2 : Req) :
    m.paymentRequirements request =
      [m.paymentReq.withResource (m.resource.resolve request)] ∧
    (m.paymentRequirements request).length = 1 ∧
    (m.paymentRequirements request).map PaymentRequirements.eraseResource = [m.paymentReq] ∧
    (m.paymentRequirements request).map PaymentRequirements.eraseResource =
      (m.paymentRequirements request2).map PaymentRequirements.eraseResource :=
  ⟨rfl, rfl, rfl, rfl⟩

/-- Evaluation witness for C8 at a configuration with no resource and at a
configuration whose price conversion fails. -/
theorem c8_witness :
    construct cfgNoRes conv9 ga9 =
      .configError "Either config.resource or resourceFromRequest must be provided" ∧
    construct cfg9 convErr ga9 = .configError "Oops" :=
  ⟨(c8_config_error_iff cfgNoRes conv9 ga9
      "Either config.resource or resourceFromRequest must be provided").mpr
      (.inl ⟨rfl, rfl, rfl⟩),
   (c8_config_error_iff cfg9 convErr ga9 "Oops").mpr
      (.inr ⟨.inr (fun hcon => Option.noConfusion hcon), rfl⟩)⟩

/-- Evaluation witness for C10 at the concrete middleware m0. -/
theorem c10_witness :
    m0.paymentRequirements () = [req0] ∧
    (m0.paymentRequirements ()).map PaymentRequirements.eraseResource = [t0] :=
  ⟨(c10_single_requirement_template_frame m0 () ()).1,
   (c10_single_requirement_template_frame m0 () ()).2.2.1⟩

end X402
